import Mathlib

/-!
Shallow embedding of the evaluation core of the Public_Speaking repository
(directory `Logic/`): the age-group configuration, the nine metric scorers,
the weighted aggregator `MetricsEvaluator.evaluate_all`, the improvement
suggestion ranking, and the upper-primary presenter's tip selection.

Python floats are modelled as exact rationals (`ℚ`) and Python ints as `ℤ`.
Python's `int(x)` truncates toward zero and `round` rounds half to even;
these are modelled by `pyInt` and `pyRoundHalfEven`.
-/

namespace PublicSpeaking

/-- Python `int(x)` on a float: truncation toward zero. -/
def pyInt (q : ℚ) : ℤ := if q < 0 then ⌈q⌉ else ⌊q⌋

/-- Python `round(x)`: round half to even. -/
def pyRoundHalfEven (q : ℚ) : ℤ :=
  let f := ⌊q⌋
  let r := q - f
  if r < 1/2 then f
  else if 1/2 < r then f + 1
  else if f % 2 = 0 then f else f + 1

/-- Python `round(x, 1)`: round to one decimal place, half to even. -/
def pyRound1 (q : ℚ) : ℚ := (pyRoundHalfEven (10 * q) : ℚ) / 10

/-- Source `BaseMetric.clamp_score`: `max(0, min(100, int(score)))`. -/
def clamp_score (q : ℚ) : ℤ := max 0 (min 100 (pyInt q))

/-- Decimal digit character. -/
def digChar : ℕ → Char
  | 0 => '0' | 1 => '1' | 2 => '2' | 3 => '3' | 4 => '4'
  | 5 => '5' | 6 => '6' | 7 => '7' | 8 => '8' | _ => '9'

/-- Decimal digits of a natural number, most significant digit first. -/
def natDigsAux (n : ℕ) (acc : List Char) : List Char :=
  let acc' := digChar (n % 10) :: acc
  if h : n / 10 = 0 then acc' else natDigsAux (n / 10) acc'
termination_by n
decreasing_by
  exact Nat.div_lt_self (Nat.pos_of_ne_zero (by intro h0; simp [h0] at h)) (by norm_num)

/-- Python `str` of a natural number. -/
def natStr (n : ℕ) : String := String.mk (natDigsAux n [])

/-- Python `str` of an `int`. -/
def intStr (z : ℤ) : String :=
  if z < 0 then String.mk ('-' :: natDigsAux z.natAbs []) else natStr z.natAbs

/-- Lower-case a character list (Python `str.lower`). -/
def lowerL (l : List Char) : List Char := l.map Char.toLower

/-- Python `str.lower()`. -/
def pyLower (s : String) : String := String.mk (lowerL s.data)

/-- Characters removed by `strip(".,!?")`. -/
def stripSet : List Char := ['.', ',', '!', '?']

/-- Python `str.strip(".,!?")`: drop those characters from both ends. -/
def pyStripPunct (s : String) : String :=
  String.mk (((s.data.dropWhile (stripSet.contains ·)).reverse.dropWhile
    (stripSet.contains ·)).reverse)

/-- Token normalisation used by the filler and repetition metrics:
`w["word"].lower().strip(".,!?")`. -/
def normalizeWord (s : String) : String := pyStripPunct (pyLower s)

/-- Does `p` match at the head of `s`? -/
def leadMatch : List Char → List Char → Bool
  | [], _ => true
  | _ :: _, [] => false
  | a :: p, b :: s => a == b && leadMatch p s

/-- Does `p` occur contiguously inside `s`? -/
def occursIn : List Char → List Char → Bool
  | p, [] => p.isEmpty
  | p, b :: s => leadMatch p (b :: s) || occursIn p s

/-- Python substring test `pat in s`. -/
def strIn (pat s : String) : Bool := occursIn pat.data s.data

/-- Character class of Python's decimal integer rendering: the ten digits
and the minus sign. -/
@[reducible] def charOK (c : Char) : Prop :=
  c.toNat = 45 ∨ (48 ≤ c.toNat ∧ c.toNat ≤ 57)

/-- Arithmetic mean, `np.mean` (all callers guard against empty input). -/
def mean (l : List ℚ) : ℚ := l.sum / l.length

/-- A transcript word as produced by the ASR collaborator: text, start and
end timestamps, confidence. -/
structure Word where
  word : String
  start : ℚ
  end_ : ℚ
  confidence : ℚ
deriving DecidableEq

/-- The five age groups of `Logic/config/age_groups.py`. -/
inductive AgeGroup where
  | pre_primary | lower_primary | upper_primary | middle | secondary
deriving DecidableEq

/-- Source `get_detailed_age_group` (and `BaseMetric._determine_age_group`,
which has the identical branch structure). -/
def get_detailed_age_group (age : ℤ) : AgeGroup :=
  if age ≤ 5 then .pre_primary
  else if age ≤ 8 then .lower_primary
  else if age ≤ 10 then .upper_primary
  else if age ≤ 13 then .middle
  else .secondary

/-- Row entry `AGE_GROUPS[g]["wpm_range"]`. -/
def wpm_range : AgeGroup → ℚ × ℚ
  | .pre_primary => (40, 90)
  | .lower_primary => (60, 110)
  | .upper_primary => (80, 130)
  | .middle => (100, 150)
  | .secondary => (120, 160)

/-- Row entry `AGE_GROUPS[g]["filler_tolerance"]`. -/
def filler_tolerance : AgeGroup → ℚ
  | .pre_primary => 15/100
  | .lower_primary => 12/100
  | .upper_primary => 10/100
  | .middle => 8/100
  | .secondary => 5/100

/-- Row entry `AGE_GROUPS[g]["pause_tolerance"]`. -/
def pause_tolerance : AgeGroup → ℚ
  | .pre_primary => 30/100
  | .lower_primary => 25/100
  | .upper_primary => 20/100
  | .middle => 15/100
  | .secondary => 10/100

/-- One row of `METRIC_WEIGHTS` (nine named weights). -/
structure WeightRow where
  clarity : ℚ
  pace : ℚ
  pause : ℚ
  filler : ℚ
  repetition : ℚ
  structure_ : ℚ
  loudness : ℚ
  pitch_variation : ℚ
  stamina : ℚ

/-- Table `METRIC_WEIGHTS` from `Logic/config/age_groups.py`. -/
def METRIC_WEIGHTS : AgeGroup → WeightRow
  | .pre_primary => ⟨25/100, 20/100, 15/100, 10/100, 5/100, 5/100, 15/100, 5/100, 0⟩
  | .lower_primary => ⟨20/100, 15/100, 15/100, 10/100, 5/100, 5/100, 15/100, 10/100, 5/100⟩
  | .upper_primary => ⟨18/100, 15/100, 12/100, 10/100, 8/100, 7/100, 12/100, 10/100, 8/100⟩
  | .middle => ⟨15/100, 12/100, 10/100, 12/100, 12/100, 15/100, 8/100, 8/100, 8/100⟩
  | .secondary => ⟨12/100, 10/100, 8/100, 12/100, 12/100, 20/100, 8/100, 10/100, 8/100⟩

/-- One row of `AUDIO_METRIC_WEIGHTS` (the audio-only weight table of
`Logic/config/age_groups.py`). -/
structure AudioWeightRow where
  loudness : ℚ
  pitch_variation : ℚ
  stamina : ℚ

/-- Table `AUDIO_METRIC_WEIGHTS` from `Logic/config/age_groups.py`. -/
def AUDIO_METRIC_WEIGHTS : AgeGroup → AudioWeightRow
  | .pre_primary => ⟨70/100, 30/100, 0⟩
  | .lower_primary => ⟨50/100, 35/100, 15/100⟩
  | .upper_primary => ⟨40/100, 35/100, 25/100⟩
  | .middle => ⟨33/100, 34/100, 33/100⟩
  | .secondary => ⟨30/100, 40/100, 30/100⟩

/-- The recurring source check `self.age_group in ["pre_primary", "lower_primary"]`. -/
def isYoung : AgeGroup → Bool
  | .pre_primary => true
  | .lower_primary => true
  | _ => false

/-- The source check `self.age_group in ["middle", "secondary"]`. -/
def isOlder : AgeGroup → Bool
  | .middle => true
  | .secondary => true
  | _ => false

/-- The part of a scorer's result dict that any claim refers to: `score`,
the `feedback` list, and (for the audio scorers) `classification`.
Metric-specific detail entries of the result dicts are referenced by no
claim and are not modelled. -/
structure MetricResult where
  score : ℤ
  feedback : List String
  classification : String := ""
deriving DecidableEq

/-- Config `METRICS_CONFIG["low_confidence_threshold"]`. -/
def low_confidence_threshold : ℚ := 6/10

/-- Config `METRICS_CONFIG["long_pause_threshold"]`. -/
def long_pause_threshold : ℚ := 2

/-- Config `METRICS_CONFIG["excessive_pause_threshold"]`. -/
def excessive_pause_threshold : ℚ := 4

/-- Config `METRICS_CONFIG["filler_words"]`. -/
def filler_words : List String :=
  ["um", "uh", "umm", "uhh", "like", "you know",
   "sort of", "kind of", "basically", "actually",
   "so", "well", "right", "okay", "yeah"]

/-- Config `METRICS_CONFIG["intro_markers"]`. -/
def intro_markers : List String :=
  ["hello", "hi", "good morning", "good afternoon",
   "today", "i will", "i am going to", "my topic",
   "let me tell you", "my name is"]

/-- Config `METRICS_CONFIG["conclusion_markers"]`. -/
def conclusion_markers : List String :=
  ["conclusion", "finally", "in summary", "to conclude",
   "thank you", "that is all", "in closing", "to sum up",
   "the end", "that's all"]

/-- Source `ClarityMetric.get_feedback`. -/
def clarity_feedback (g : AgeGroup) (score : ℤ) : List String :=
  if score < 50 then
    if isYoung g then ["Try speaking a bit louder and clearer!"]
    else ["Try speaking a bit louder and clearer"]
  else if score < 70 then
    if isYoung g then ["Good effort! Keep practicing speaking clearly!"]
    else ["Good effort! Some words were unclear, practice speaking with confidence"]
  else
    if isYoung g then ["Great job! Your words were easy to understand!"]
    else ["Great clarity! Your words were easy to understand"]

/-- Source `ClarityMetric.evaluate`. -/
def clarity_evaluate (age : ℤ) (words : List Word) : MetricResult :=
  if words.isEmpty then ⟨0, ["No speech detected"], ""⟩
  else
    let avg_confidence := mean (words.map (fun w => w.confidence))
    let score := clamp_score (avg_confidence * 100)
    ⟨score, clarity_feedback (get_detailed_age_group age) score, ""⟩

/-- Source `PaceMetric.get_feedback`. -/
def pace_feedback (g : AgeGroup) (wpm imin imax : ℚ) : List String :=
  if wpm < imin then
    if isYoung g then
      ["Try speaking a little faster! (" ++ intStr (pyInt wpm) ++ " words per minute)"]
    else
      ["Your pace is a bit slow (" ++ intStr (pyInt wpm) ++
        " words/min). Try speaking a little faster"]
  else if imax < wpm then
    if isYoung g then
      ["Great energy! Try slowing down just a little (" ++ intStr (pyInt wpm) ++
        " words per minute)"]
    else
      ["Your pace is quite fast (" ++ intStr (pyInt wpm) ++
        " words/min). Take your time and slow down"]
  else
    if isYoung g then ["Perfect speed! (" ++ intStr (pyInt wpm) ++ " words per minute)"]
    else ["Excellent pace! (" ++ intStr (pyInt wpm) ++ " words/min)"]

/-- The words-per-minute computation of `PaceMetric.evaluate`:
`word_count / (total_duration / 60)`, guarded to 0 for a non-positive
speaking duration. -/
def computed_wpm (words : List Word) (total_duration : ℚ) : ℚ :=
  if 0 < total_duration / 60 then (words.length : ℚ) / (total_duration / 60) else 0

/-- Source `PaceMetric.evaluate`. -/
def pace_evaluate (age : ℤ) (words : List Word) (total_duration : ℚ) : MetricResult :=
  if words.isEmpty || total_duration == 0 then ⟨0, ["No speech detected"], ""⟩
  else
    let wpm : ℚ := computed_wpm words total_duration
    let g := get_detailed_age_group age
    let imin := (wpm_range g).1
    let imax := (wpm_range g).2
    let pace_score : ℤ :=
      if imin ≤ wpm ∧ wpm ≤ imax then 100
      else if wpm < imin then pyInt ((if 0 < imin then wpm / imin else 0) * 100)
      else pyInt ((if 0 < wpm then imax / wpm else 0) * 100)
    ⟨clamp_score (pace_score : ℚ), pace_feedback g wpm imin imax, ""⟩

/-- Source `PauseMetric.get_feedback`. -/
def pause_feedback (g : AgeGroup) (long_pauses excessive_pauses : ℕ) : List String :=
  if 0 < excessive_pauses then
    if isYoung g then
      ["You had " ++ natStr excessive_pauses ++ " really long pauses. Try to keep talking!"]
    else
      ["You had " ++ natStr excessive_pauses ++
        " very long pauses (>4 seconds). Try to keep moving forward"]
  else if 3 < long_pauses then
    if isYoung g then ["You have some long pauses. It's okay to pause briefly!"]
    else ["You have several long pauses. It's okay to pause, but try to keep them brief"]
  else if 0 < long_pauses then ["Good control of pauses! Just a few long ones"]
  else ["Excellent! No excessive pauses detected"]

/-- Source `PauseMetric.evaluate`. The word count is at least 2 past the
guard, so the `if total_words > 0` protection of the ratio is always taken. -/
def pause_evaluate (age : ℤ) (words : List Word) : MetricResult :=
  if words.length < 2 then ⟨100, ["Not enough speech to evaluate pauses"], ""⟩
  else
    let gaps := ((words.zip words.tail).map (fun p => p.2.start - p.1.end_)).filter (0 < ·)
    let long_pauses := (gaps.filter (long_pause_threshold < ·)).length
    let excessive_pauses := (gaps.filter (excessive_pause_threshold < ·)).length
    let g := get_detailed_age_group age
    let tol := pause_tolerance g
    let long_pause_frac : ℚ := (long_pauses : ℚ) / (words.length : ℚ)
    let pause_score : ℤ :=
      if long_pause_frac ≤ tol then 100
      else max 0 (pyInt (100 - (long_pause_frac - tol) * 200))
    let pause_score := pause_score - excessive_pauses * 10
    ⟨clamp_score (pause_score : ℚ), pause_feedback g long_pauses excessive_pauses, ""⟩

/-- Source `FillerMetric.get_feedback`. -/
def filler_feedback (g : AgeGroup) (fcount : ℕ) (ffrac tol : ℚ) : List String :=
  if tol * 2 < ffrac then
    if isYoung g then
      ["You said 'um' and 'uh' a lot (" ++ natStr fcount ++
        " times). Try taking a breath instead!"]
    else
      ["You used many filler words like 'um', 'uh', 'like' (" ++ natStr fcount ++
        " times). Try pausing silently instead"]
  else if tol < ffrac then
    if isYoung g then
      ["You used some filler words (" ++ natStr fcount ++ " times). Keep practicing!"]
    else
      ["You used some filler words (" ++ natStr fcount ++ " times). Practice reducing them"]
  else ["Great! Very few filler words used"]

/-- Number of filler tokens in the word list (`FillerMetric.evaluate`). -/
def filler_count (words : List Word) : ℕ :=
  ((words.map (fun w => normalizeWord w.word)).filter (filler_words.contains ·)).length

/-- The filler ratio `filler_count / total_words` of `FillerMetric.evaluate`. -/
def fillerFrac (words : List Word) : ℚ := (filler_count words : ℚ) / (words.length : ℚ)

/-- Source `FillerMetric.evaluate`. -/
def fillers_evaluate (age : ℤ) (words : List Word) : MetricResult :=
  if words.isEmpty then ⟨100, [], ""⟩
  else
    let g := get_detailed_age_group age
    let tol := filler_tolerance g
    let ffrac := fillerFrac words
    let score : ℤ :=
      if ffrac ≤ tol then 100 else max 0 (pyInt (100 - (ffrac - tol) * 300))
    ⟨clamp_score (score : ℚ), filler_feedback g (filler_count words) ffrac tol, ""⟩

/-- Source `RepetitionMetric.get_feedback`. -/
def repetition_feedback (g : AgeGroup) (consecutive_repeats repeated_phrases : ℕ) :
    List String :=
  if 2 < repeated_phrases then
    if isYoung g then ["You repeated some phrases. Try to keep going with new ideas!"]
    else ["You repeated some phrases multiple times. Try to move forward with new ideas"]
  else if 3 < consecutive_repeats then
    if isYoung g then ["You repeated some words. Take a breath and continue!"]
    else ["You repeated some words back-to-back. Take a breath and continue"]
  else if 0 < consecutive_repeats then ["Just a bit of repetition noticed - doing well overall"]
  else ["Excellent! No noticeable repetition"]

/-- Consecutive 3-word phrases, `" ".join(word_texts[i:i+3])`. -/
def grams3 : List String → List String
  | a :: b :: c :: rest => (a ++ " " ++ b ++ " " ++ c) :: grams3 (b :: c :: rest)
  | _ => []

/-- Source `RepetitionMetric.evaluate` with the configured
`min_word_length_for_repeat = 3` and `phrase_repeat_threshold = 3`. The
number of repeated phrases is the number of distinct 3-grams occurring at
least three times (`Counter` keys passing the threshold). -/
def repetition_evaluate (age : ℤ) (words : List Word) : MetricResult :=
  if words.length < 5 then ⟨100, [], ""⟩
  else
    let word_texts := words.map (fun w => normalizeWord w.word)
    let consecutive_repeats :=
      ((word_texts.zip word_texts.tail).filter
        (fun p => p.1 == p.2 && 3 ≤ p.1.length)).length
    let phrases := grams3 word_texts
    let repeated_phrases :=
      (phrases.eraseDups.filter (fun p => 3 ≤ phrases.count p)).length
    let g := get_detailed_age_group age
    let penalty : ℚ := ((consecutive_repeats * 5 + repeated_phrases * 10 : ℕ) : ℚ)
    let penalty := if isYoung g then penalty * (1/2) else penalty
    ⟨clamp_score (100 - penalty),
      repetition_feedback g consecutive_repeats repeated_phrases, ""⟩

/-- Source `StructureMetric.get_feedback` (including the
`" and ".join(missing)` rendering of the missing parts). -/
def structure_feedback (g : AgeGroup) (has_intro has_conclusion : Bool) : List String :=
  let missingStr :=
    if !has_intro && !has_conclusion then "introduction and conclusion"
    else if !has_intro then "introduction" else "conclusion"
  if (!has_intro || !has_conclusion) && isOlder g then
    ["Try adding a clear " ++ missingStr ++ " to your speech"]
  else if !has_intro || !has_conclusion then
    if isYoung g then
      ["Great job! Next time, try starting with 'Hello' or ending with 'Thank you'!"]
    else
      ["Great effort! Next time, try starting with a greeting or ending with 'thank you'"]
  else
    if isYoung g then ["Excellent! You started and ended your speech perfectly!"]
    else ["Excellent structure! Clear beginning, middle, and end"]

/-- Source `StructureMetric.evaluate`. Of the `segments` argument only
`len(segments)` is read, so it is modelled by the count `nsegments`. -/
def structure_evaluate (age : ℤ) (full_text : String) (nsegments : ℕ) : MetricResult :=
  if full_text == "" then ⟨0, ["No speech detected"], ""⟩
  else
    let text_lower := lowerL full_text.data
    let has_intro := intro_markers.any (fun m => occursIn m.data (text_lower.take 200))
    let has_conclusion := conclusion_markers.any
      (fun m => occursIn m.data (text_lower.drop (text_lower.length - 200)))
    let has_body := 3 ≤ nsegments || 100 < full_text.length
    let s0 : ℤ := (if has_intro then 35 else 0) + (if has_body then 30 else 0) +
      (if has_conclusion then 35 else 0)
    let g := get_detailed_age_group age
    let s1 :=
      if isYoung g then min 100 (s0 + 30)
      else if g = .upper_primary then min 100 (s0 + 15)
      else s0
    ⟨clamp_score (s1 : ℚ), structure_feedback g has_intro has_conclusion, ""⟩

/-- Loudness feature bundle; the fields the loudness scorer reads. -/
structure LoudnessFeatures where
  rms_mean : ℚ
  rms_db_mean : ℚ
  rms_db_std : ℚ
  classification : String
deriving DecidableEq

/-- Pitch feature bundle; the fields the pitch-variation scorer reads
(`voiced_ratio` in the source is `voiced_frac` here). -/
structure PitchFeatures where
  pitch_mean : ℚ
  pitch_std : ℚ
  voiced_frac : ℚ
  classification : String
deriving DecidableEq

/-- Stamina feature bundle; the fields the stamina scorer reads. -/
structure StaminaFeatures where
  energy_segments : List ℚ
  energy_dropoff : ℚ
  energy_consistency : ℚ
  classification : String
deriving DecidableEq

/-- Aggregate audio feature bundle consumed by the audio scorers. -/
structure AudioFeatures where
  loudness : LoudnessFeatures
  pitch : PitchFeatures
  stamina : StaminaFeatures
  duration_seconds : ℚ
  valid : Bool
deriving DecidableEq

/-- Modelled from the spec: the `AudioFeatures` model class
(`Logic/models/audio_features.py`) is not present under `src/`; per the
spec it carries an "empty/invalid" sentinel state, reported by
`is_valid()`, that is false exactly when decoding or extraction failed.
Validity is therefore modelled as the stored flag `valid`. -/
def AudioFeatures.is_valid (af : AudioFeatures) : Bool := af.valid

/-- Config `AUDIO_METRICS_CONFIG["loudness"]["optimal_db_range"]`, low end. -/
def optimal_db_min : ℚ := -25

/-- Config `AUDIO_METRICS_CONFIG["loudness"]["optimal_db_range"]`, high end. -/
def optimal_db_max : ℚ := -12

/-- Config `AUDIO_METRICS_CONFIG["loudness"]["too_soft_threshold"]`. -/
def too_soft_threshold : ℚ := -30

/-- Config `AUDIO_METRICS_CONFIG["loudness"]["too_loud_threshold"]`. -/
def too_loud_threshold : ℚ := -8

/-- Config `AUDIO_METRICS_CONFIG["loudness"]["variance_threshold"]`. -/
def variance_threshold : ℚ := 8

/-- Source `LoudnessMetric.get_feedback`. -/
def loudness_feedback (g : AgeGroup) (classification : String) (is_inconsistent : Bool) :
    List String :=
  let base :=
    if classification == "too_soft" then
      if g = .pre_primary then
        ["Try using your Lion Voice! 🦁 ROAR so everyone can hear you!"]
      else if g = .lower_primary then
        ["Your voice is a bit quiet. Try speaking louder like a superhero!"]
      else ["Your voice is a bit quiet. Try speaking louder so everyone can hear!"]
    else if classification == "too_loud" then
      if g = .pre_primary then ["Wow, you're loud! Let's try your indoor voice! 🏠"]
      else if g = .lower_primary then ["Great energy! Try speaking just a bit softer."]
      else ["You have a powerful voice! Try speaking just a bit softer."]
    else
      if g = .pre_primary then ["Perfect voice! You sound amazing! ⭐"]
      else if g = .lower_primary then ["Great voice strength! You're easy to hear!"]
      else ["Great voice strength! You're easy to hear."]
  if is_inconsistent && !isYoung g then
    base ++ ["Try to keep your voice at the same volume throughout."]
  else base

/-- Source `LoudnessMetric.evaluate`. -/
def loudness_evaluate (age : ℤ) (af : AudioFeatures) : MetricResult :=
  let l := af.loudness
  if l.rms_mean == 0 then ⟨0, ["No audio detected"], "no_audio"⟩
  else
    let rms_db := l.rms_db_mean
    let s0 : ℤ :=
      if optimal_db_min ≤ rms_db ∧ rms_db ≤ optimal_db_max then 100
      else if rms_db < too_soft_threshold then
        max 0 (pyInt (50 * (rms_db + 60) / (too_soft_threshold + 60)))
      else if rms_db < optimal_db_min then
        pyInt (50 + 50 * (rms_db - too_soft_threshold) / (optimal_db_min - too_soft_threshold))
      else if too_loud_threshold < rms_db then
        max 50 (pyInt (100 - (rms_db - too_loud_threshold) * 5))
      else
        pyInt (100 - 20 * (rms_db - optimal_db_max) / (too_loud_threshold - optimal_db_max))
    let g := get_detailed_age_group age
    let is_inconsistent := variance_threshold < l.rms_db_std
    ⟨clamp_score (s0 : ℚ), loudness_feedback g l.classification is_inconsistent,
      l.classification⟩

/-- Config `AUDIO_METRICS_CONFIG["pitch"]["monotone_std_threshold"]`. -/
def monotone_std_threshold : ℚ := 15

/-- Config `AUDIO_METRICS_CONFIG["pitch"]["erratic_std_threshold"]`. -/
def erratic_std_threshold : ℚ := 100

/-- Source `PitchVariationMetric.get_feedback`. -/
def pitch_feedback (g : AgeGroup) (classification : String) : List String :=
  if classification == "monotone" then
    if g = .pre_primary then
      ["Try making your voice go up and down like a roller coaster! 🎢"]
    else if g = .lower_primary then
      ["Try adding more expression - make your voice go high and low!"]
    else
      ["Try adding more expression to your voice - go up and down like a roller coaster!"]
  else if classification == "erratic" then
    if g = .pre_primary then ["Great energy! Your voice is very bouncy! 🎉"]
    else if g = .lower_primary then ["Good energy! Try to control your voice a bit more."]
    else ["Good energy! Try to control your pitch a bit more."]
  else
    if g = .pre_primary then ["Your voice sounds so interesting! ⭐"]
    else if g = .lower_primary then ["Great expression! Your voice has nice variety!"]
    else ["Great expression! Your voice has nice variety."]

/-- The pre-primary benefit-of-doubt adjustment at the end of
`PitchVariationMetric.evaluate`: a pre-primary score below 60 is raised by
20, capped at 70. -/
def pre_primary_pitch_adjust (g : AgeGroup) (s1 : ℤ) : ℤ :=
  if g = .pre_primary ∧ s1 < 60 then min 70 (s1 + 20) else s1

/-- Source `PitchVariationMetric.evaluate`. -/
def pitch_variation_evaluate (age : ℤ) (af : AudioFeatures) : MetricResult :=
  let p := af.pitch
  let g := get_detailed_age_group age
  if p.classification == "insufficient_data" || p.voiced_frac < 1/10 then
    if g = .pre_primary then ⟨70, ["Keep practicing your speaking!"], "not_analyzed"⟩
    else ⟨50, ["Not enough voiced speech to analyze expression"], "insufficient_data"⟩
  else
    let std := p.pitch_std
    let s0 : ℤ :=
      if p.classification == "monotone" then
        pyInt (40 + 30 * (std / monotone_std_threshold))
      else if p.classification == "erratic" then
        pyInt (80 - min 30 ((std - erratic_std_threshold) * (3/10)))
      else
        let mid := (monotone_std_threshold + erratic_std_threshold) / 2
        if std ≤ mid then
          pyInt (70 + 20 * ((std - monotone_std_threshold) / (mid - monotone_std_threshold)))
        else
          pyInt (90 + 10 * (1 - (std - mid) / (erratic_std_threshold - mid)))
    let s2 := pre_primary_pitch_adjust g (clamp_score (s0 : ℚ))
    ⟨s2, pitch_feedback g p.classification, p.classification⟩

/-- Config `AUDIO_METRICS_CONFIG["stamina"]["good_dropoff_ratio"]`. -/
def good_dropoff : ℚ := 75/100

/-- Config `AUDIO_METRICS_CONFIG["stamina"]["warning_dropoff_ratio"]`. -/
def warning_dropoff : ℚ := 50/100

/-- Config `AUDIO_METRICS_CONFIG["stamina"]["consistency_threshold"]`. -/
def consistency_threshold : ℚ := 25/100

/-- Config `AUDIO_METRICS_CONFIG["stamina"]["min_duration_for_analysis"]`. -/
def min_duration_for_analysis : ℚ := 15

/-- Source `StaminaMetric.get_feedback`. -/
def stamina_feedback (g : AgeGroup) (classification : String) : List String :=
  if classification == "fading" then
    if g = .pre_primary then
      ["You started strong! Try to stay loud until the end! ðŸ’ª"]
    else if g = .lower_primary then
      ["Great start! Try to keep your energy up until the very end!"]
    else ["Your energy dropped towards the end. Try to finish as strong as you started!"]
  else if classification == "inconsistent" then
    if isYoung g then ["Try to keep your voice the same volume from start to finish!"]
    else ["Try to maintain steady energy from start to finish."]
  else
    if g = .pre_primary then ["You kept going strong the whole time! Amazing! ðŸŒŸ"]
    else ["Great job keeping your energy up throughout!"]

/-- The youngest-bracket floor boost at the end of
`StaminaMetric.evaluate`: a score below 70 is raised by 20, capped at 80. -/
def young_stamina_boost (g : AgeGroup) (s1 : ℤ) : ℤ :=
  if isYoung g ∧ s1 < 70 then min 80 (s1 + 20) else s1

/-- Source `StaminaMetric.evaluate`. -/
def stamina_evaluate (age : ℤ) (af : AudioFeatures) : MetricResult :=
  if af.duration_seconds < min_duration_for_analysis then
    ⟨100, ["Speech too short to analyze stamina"], "short_speech"⟩
  else if af.stamina.energy_segments.isEmpty then
    ⟨70, ["Energy analysis not available"], "not_analyzed"⟩
  else
    let d := af.stamina.energy_dropoff
    let c := af.stamina.energy_consistency
    let dropoff_score : ℤ :=
      if good_dropoff ≤ d then 60
      else if warning_dropoff ≤ d then
        pyInt (30 + 30 * (d - warning_dropoff) / (good_dropoff - warning_dropoff))
      else pyInt (30 * d / warning_dropoff)
    let consistency_score : ℤ :=
      if consistency_threshold ≤ c then 40 else pyInt (40 * c / consistency_threshold)
    let g := get_detailed_age_group age
    let s2 := young_stamina_boost g (clamp_score ((dropoff_score + consistency_score : ℤ) : ℚ))
    ⟨s2, stamina_feedback g af.stamina.classification, af.stamina.classification⟩

/-- Output record of `MetricsEvaluator.evaluate_all`. -/
structure EvalResults where
  overall : ℚ
  clarity : MetricResult
  pace : MetricResult
  pause_management : MetricResult
  filler_reduction : MetricResult
  repetition_control : MetricResult
  structure_ : MetricResult
  loudness : MetricResult
  pitch_variation : MetricResult
  stamina : MetricResult
deriving DecidableEq

/-- Default audio sub-result used by `evaluate_all` when audio features are
missing or invalid. -/
def not_analyzed_result : MetricResult :=
  ⟨70, ["Audio features not available"], "not_analyzed"⟩

/-- Source `MetricsEvaluator.evaluate_all`. -/
def evaluate_all (age : ℤ) (words : List Word) (full_text : String) (nsegments : ℕ)
    (total_duration : ℚ) (audio_features : Option AudioFeatures) : EvalResults :=
  let clarity_result := clarity_evaluate age words
  let pace_result := pace_evaluate age words total_duration
  let pause_result := pause_evaluate age words
  let filler_result := fillers_evaluate age words
  let repetition_result := repetition_evaluate age words
  let structure_result := structure_evaluate age full_text nsegments
  let audio_results :=
    match audio_features with
    | some af =>
      if af.is_valid then
        (loudness_evaluate age af, pitch_variation_evaluate age af, stamina_evaluate age af)
      else (not_analyzed_result, not_analyzed_result, not_analyzed_result)
    | none => (not_analyzed_result, not_analyzed_result, not_analyzed_result)
  let loudness_result := audio_results.1
  let pitch_result := audio_results.2.1
  let stamina_result := audio_results.2.2
  let w := METRIC_WEIGHTS (get_detailed_age_group age)
  let overall := pyRound1 (
    (clarity_result.score : ℚ) * w.clarity +
    (pace_result.score : ℚ) * w.pace +
    (pause_result.score : ℚ) * w.pause +
    (filler_result.score : ℚ) * w.filler +
    (repetition_result.score : ℚ) * w.repetition +
    (structure_result.score : ℚ) * w.structure_ +
    (loudness_result.score : ℚ) * w.loudness +
    (pitch_result.score : ℚ) * w.pitch_variation +
    (stamina_result.score : ℚ) * w.stamina)
  ⟨overall, clarity_result, pace_result, pause_result, filler_result,
    repetition_result, structure_result, loudness_result, pitch_result, stamina_result⟩

/-- The aggregation formula of `evaluate_all` (and of the spec):
`Σ weight_i · score_i` over the nine metric results of `r`, using the
weight row of the student's age group. -/
def overall_formula (age : ℤ) (r : EvalResults) : ℚ :=
  let w := METRIC_WEIGHTS (get_detailed_age_group age)
  (r.clarity.score : ℚ) * w.clarity +
  (r.pace.score : ℚ) * w.pace +
  (r.pause_management.score : ℚ) * w.pause +
  (r.filler_reduction.score : ℚ) * w.filler +
  (r.repetition_control.score : ℚ) * w.repetition +
  (r.structure_.score : ℚ) * w.structure_ +
  (r.loudness.score : ℚ) * w.loudness +
  (r.pitch_variation.score : ℚ) * w.pitch_variation +
  (r.stamina.score : ℚ) * w.stamina

/-- The filter of `generate_improvement_suggestions`:
`"not available" not in feedback.lower()`. -/
def keepFeedback (f : String) : Bool := !(strIn ("not available") (pyLower f))

/-- The `(score, feedback)` pool of `generate_improvement_suggestions`,
collected over the nine metrics in the order the source iterates them,
with the filter applied as each feedback string is visited. -/
def feedbackPool (r : EvalResults) : List (ℤ × String) :=
  ([r.clarity, r.pace, r.pause_management, r.filler_reduction, r.repetition_control,
    r.structure_, r.loudness, r.pitch_variation, r.stamina].map
    (fun m => (m.feedback.filter keepFeedback).map (fun f => (m.score, f)))).flatten

/-- Insert into a score-sorted list after all strictly smaller scores and
before equal ones, preserving stability. -/
def sInsert (x : ℤ × String) : List (ℤ × String) → List (ℤ × String)
  | [] => [x]
  | y :: ys => if y.1 < x.1 then y :: sInsert x ys else x :: y :: ys

/-- Stable ascending sort by score; Python's `list.sort(key=...)` is
stable, and any stable sort produces the same list. -/
def sortByScore : List (ℤ × String) → List (ℤ × String)
  | [] => []
  | x :: xs => sInsert x (sortByScore xs)

/-- The collection loop of `generate_improvement_suggestions`: walk the
sorted pool, append unseen feedback, stop once the maximum is reached. -/
def suggLoop (maxS : ℕ) : List (ℤ × String) → List String → List String → List String
  | [], sugg, _ => sugg
  | (_, f) :: rest, sugg, seen =>
    if seen.contains f then
      if maxS ≤ sugg.length then sugg else suggLoop maxS rest sugg seen
    else
      let sugg' := sugg ++ [f]
      if maxS ≤ sugg'.length then sugg' else suggLoop maxS rest sugg' (f :: seen)

/-- Source `MetricsEvaluator.generate_improvement_suggestions`. -/
def generate_improvement_suggestions (r : EvalResults) (max_suggestions : ℕ := 5) :
    List String :=
  suggLoop max_suggestions (sortByScore (feedbackPool r)) [] []

/-- Modelled from the spec: the filter as the spec words it, dropping any
feedback string containing "not available" or "not analyzed". -/
def specKeepFeedback (f : String) : Bool :=
  !(strIn ("not available") (pyLower f) || strIn ("not analyzed") (pyLower f))

/-- Modelled from the spec: the pooled `(score, feedback)` pairs of all
nine metrics under the spec's filter. -/
def specFeedbackPool (r : EvalResults) : List (ℤ × String) :=
  ([r.clarity, r.pace, r.pause_management, r.filler_reduction, r.repetition_control,
    r.structure_, r.loudness, r.pitch_variation, r.stamina].map
    (fun m => (m.feedback.filter specKeepFeedback).map (fun f => (m.score, f)))).flatten

/-- No string in the list contains "not analyzed" once lower-cased: the
condition under which the code's suggestion filter (which drops only
"not available") and the spec's filter (which also drops "not analyzed")
agree. -/
def noNotAnalyzed (l : List String) : Prop :=
  ∀ f ∈ l, strIn ("not analyzed") (pyLower f) = false

/-- Deduplication by exact string match keeping first occurrences. -/
def dedupFirstAux : List String → List String → List String
  | [], _ => []
  | f :: rest, seen =>
    if seen.contains f then dedupFirstAux rest seen
    else f :: dedupFirstAux rest (f :: seen)

/-- Modelled from the spec: suggestion ranking as the spec describes it —
pool, drop "not available"/"not analyzed" feedback, stable-sort ascending
by originating score, deduplicate by exact match, truncate to the maximum. -/
def spec_suggestions (r : EvalResults) (max_suggestions : ℕ) : List String :=
  (dedupFirstAux ((sortByScore (specFeedbackPool r)).map Prod.snd) []).take max_suggestions

/-- The `"scores"` block of the raw evaluation report
(`MetricsEvaluator.get_scores_dict`), which `BasePresenter._get_score`
reads when present. -/
structure ScoresDict where
  overall : ℚ
  clarity : ℤ
  pace : ℤ
  pause_management : ℤ
  filler_reduction : ℤ
  repetition_control : ℤ
  structure_ : ℤ
  loudness : ℤ
  pitch_variation : ℤ
  stamina : ℤ
deriving DecidableEq

/-- The seven metric keys the upper-primary presenter pools, in the
insertion order of its `scores` dict (minus `"overall"`). -/
inductive UPMetric where
  | loudness | clarity | pitch_variation | pace | stamina | filler | structure_
deriving DecidableEq

/-- An improvement tip of `UpperPrimaryPresenter._get_improvement_tip`. -/
structure Tip where
  text : String
  target_metric : String
deriving DecidableEq

/-- The `tip_map` of `UpperPrimaryPresenter._get_improvement_tip`. Every
pooled key is present in the source dict, so the `.get` fallback entry is
unreachable and not modelled. -/
def tip_map : UPMetric → Tip
  | .loudness => ⟨"Try speaking a bit louder next time!", "confidence"⟩
  | .clarity => ⟨"Focus on pronouncing each word clearly.", "clarity"⟩
  | .pitch_variation => ⟨"Add more expression - make your voice go up and down!", "expression"⟩
  | .pace => ⟨"Watch your speaking speed - not too fast, not too slow.", "pace"⟩
  | .filler => ⟨"Try using fewer filler words like 'um' - pause silently instead!", "confidence"⟩
  | .stamina => ⟨"Keep your energy up until the very end!", "confidence"⟩
  | .structure_ => ⟨"Start with a greeting and end with 'thank you'!", "clarity"⟩

/-- The pooled `metric_scores` dict (insertion order, `"overall"` removed). -/
def upMetricScores (s : ScoresDict) : List (UPMetric × ℤ) :=
  [(.loudness, s.loudness), (.clarity, s.clarity),
   (.pitch_variation, s.pitch_variation), (.pace, s.pace),
   (.stamina, s.stamina), (.filler, s.filler_reduction),
   (.structure_, s.structure_)]

/-- Python `min(d, key=d.get)` over a non-empty dict: fold keeping the
first element attaining the minimal value. -/
def pyMinBy : (UPMetric × ℤ) → List (UPMetric × ℤ) → (UPMetric × ℤ)
  | best, [] => best
  | best, x :: xs => if x.2 < best.2 then pyMinBy x xs else pyMinBy best xs

/-- Source `UpperPrimaryPresenter._get_improvement_tip`. The pooled dict is
never empty, so the empty-dict early return of the source is unreachable
and not modelled. -/
def get_improvement_tip (s : ScoresDict) : Tip :=
  let lowest := pyMinBy ((.loudness, s.loudness) : UPMetric × ℤ) (upMetricScores s).tail
  if 80 ≤ lowest.2 then ⟨"Amazing work! You're doing great - keep it up!", "confidence"⟩
  else tip_map lowest.1

/-- Modelled from the spec: the upper-primary tip selection as the spec
words it — the single tip targets the globally lowest-scoring pooled
metric (`overall` excluded), ties broken by the declared metric order
(the first pooled entry attaining the global minimum), with a generic
praise message when that minimum is at least 80. -/
def specTip (s : ScoresDict) : Tip :=
  let pool := upMetricScores s
  let m := (pool.map Prod.snd).foldr min s.loudness
  let lowest := (pool.find? (fun x => x.2 == m)).getD (.loudness, s.loudness)
  if 80 ≤ m then ⟨"Amazing work! You're doing great - keep it up!", "confidence"⟩
  else tip_map lowest.1

/-- One progress bar of `UpperPrimaryPresenter._build_progress_bars`. -/
structure ProgressBar where
  id : String
  label : String
  value : ℤ
  color : String
deriving DecidableEq

/-- Source `UpperPrimaryPresenter._build_progress_bars` with the
`COLORS["metrics"]` values inlined. -/
def build_progress_bars (loudness clarity expression pace : ℤ) : List ProgressBar :=
  [⟨"confidence", "Confidence", loudness, "#4CAF50"⟩,
   ⟨"clarity", "Clarity", clarity, "#2196F3"⟩,
   ⟨"expression", "Expression", expression, "#FF9800"⟩,
   ⟨"pace", "Pace", pace, "#9C27B0"⟩]

/-- A badge of `get_badges_for_scores`. -/
structure Badge where
  id : String
  name : String
  emoji : String
  animation : String
deriving DecidableEq

/-- Source `get_badges_for_scores` restricted to the `upper_primary` rows of
`BADGES`; the string conditions of that table parse to exactly these
threshold checks (`"all_scores >= 70"` ranges over every numeric value of
the presenter's `scores` dict, `overall` included). -/
def upper_primary_badges (loudness clarity pitch pace stamina filler structureScore : ℤ)
    (overall : ℚ) : List Badge :=
  (if 70 ≤ loudness ∧ 70 ≤ clarity ∧ 70 ≤ pitch ∧ 70 ≤ pace ∧ 70 ≤ stamina ∧
      70 ≤ filler ∧ 70 ≤ structureScore ∧ 70 ≤ overall then
    [⟨"all_rounder", "All-Rounder Badge", "🎯", "confetti"⟩] else []) ++
  (if 80 ≤ pitch then [⟨"expression_star", "Expression Star", "🌟", "sparkle"⟩] else []) ++
  (if 85 ≤ loudness then [⟨"confidence_champion", "Confidence Champion", "💪", "flex"⟩] else []) ++
  (if 80 ≤ stamina then [⟨"endurance_master", "Endurance Master", "🏃", "run"⟩] else []) ++
  (if 90 ≤ filler then [⟨"smooth_speaker", "Smooth Speaker", "🎤", "mic_drop"⟩] else [])

/-- The upper-primary presentation payload (`streak` is always `None` in
the source and modelled as a constant `none`). -/
structure UpperPrimaryPresentation where
  age_group : String
  format_version : String
  progress_bars : List ProgressBar
  improvement_tip : Tip
  badges_earned : List Badge
  streak : Option ℤ
  show_to_child : Bool
deriving DecidableEq

/-- Source `UpperPrimaryPresenter.transform` on a raw evaluation that
carries a `"scores"` block and a metadata duration. -/
def upper_primary_transform (s : ScoresDict) (_duration_seconds : ℚ) :
    UpperPrimaryPresentation :=
  { age_group := "upper_primary"
    format_version := "1.0"
    progress_bars := build_progress_bars s.loudness s.clarity s.pitch_variation s.pace
    improvement_tip := get_improvement_tip s
    badges_earned := upper_primary_badges s.loudness s.clarity s.pitch_variation s.pace
      s.stamina s.filler_reduction s.structure_ s.overall
    streak := none
    show_to_child := true }

/-! ## Concrete example inputs used by counterexamples and witnesses -/

/-- Two words whose mean confidence is 7/8, so that the clarity score
computation hits the half-integer 87.5. -/
def cwords : List Word := [⟨"a", 0, 1, 3/4⟩, ⟨"b", 1, 2, 1⟩]

/-- Ten words, exactly one of which is the filler "um". -/
def fillerWitnessWords : List Word :=
  ⟨"um", 0, 1, 9/10⟩ :: (List.range 9).map (fun i => ⟨"apple", i + 1, i + 2, 9/10⟩)

/-- Eight words; over six seconds these give exactly 80 words per minute. -/
def paceWitnessWords : List Word :=
  (List.range 8).map (fun i => ⟨"apple", i, i + 1, 9/10⟩)

/-- A valid audio feature bundle: optimal loudness (-20 dB), expressive
pitch with standard deviation 57.5, and a 10-second duration (below the
stamina analysis minimum). -/
def afValid : AudioFeatures :=
  { loudness := ⟨1/20, -20, 0, "optimal"⟩
    pitch := ⟨250, 115/2, 1/2, "expressive"⟩
    stamina := ⟨[1/20, 1/20, 1/20, 1/20], 1, 95/100, "consistent"⟩
    duration_seconds := 10
    valid := true }

/-- An invalid (sentinel) audio feature bundle. -/
def afInvalid : AudioFeatures :=
  { loudness := ⟨0, -60, 0, "no_audio"⟩
    pitch := ⟨0, 0, 0, "insufficient_data"⟩
    stamina := ⟨[], 1, 1, "unknown"⟩
    duration_seconds := 0
    valid := false }

/-! ## Basic lemmas

The Batteries rational arithmetic operations are `@[irreducible]`, which
blocks `decide` on concrete rational computations; restoring the default
reducibility for this file lets witnesses evaluate. -/

set_option allowUnsafeReducibility true

attribute [local semireducible] Rat.add Rat.mul Rat.sub Rat.inv

theorem clamp_score_nonneg (q : ℚ) : 0 ≤ clamp_score q := le_max_left 0 _

theorem clamp_score_le (q : ℚ) : clamp_score q ≤ 100 :=
  max_le (by norm_num) (min_le_left 100 _)

/-! ## C2: weight rows sum to one -/

/-- C2: for every one of the five age groups, the nine named weights of its
`METRIC_WEIGHTS` row sum to 1.0 within a tolerance of 1e-6 (in the exact
rational model the sums are exactly 1). -/
theorem weight_rows_sum_to_one (g : AgeGroup) :
    |(METRIC_WEIGHTS g).clarity + (METRIC_WEIGHTS g).pace + (METRIC_WEIGHTS g).pause +
      (METRIC_WEIGHTS g).filler + (METRIC_WEIGHTS g).repetition +
      (METRIC_WEIGHTS g).structure_ + (METRIC_WEIGHTS g).loudness +
      (METRIC_WEIGHTS g).pitch_variation + (METRIC_WEIGHTS g).stamina - 1| ≤
      1 / 1000000 := by
  cases g <;> norm_num [METRIC_WEIGHTS]

/-! ## C3: the age bucketing is a total partition of ages 3–18 -/

/-- C3: on integer ages 3 through 18, `get_detailed_age_group` maps every
age to exactly one of the five groups, the preimages being the disjoint
covering intervals 3–5, 6–8, 9–10, 11–13 and 14–18; in particular every
boundary age (5, 8, 10, 13) falls in the lower bucket. -/
theorem age_group_partition (age : ℤ) (h3 : 3 ≤ age) (h18 : age ≤ 18) :
    (get_detailed_age_group age = .pre_primary ↔ age ≤ 5) ∧
    (get_detailed_age_group age = .lower_primary ↔ 6 ≤ age ∧ age ≤ 8) ∧
    (get_detailed_age_group age = .upper_primary ↔ 9 ≤ age ∧ age ≤ 10) ∧
    (get_detailed_age_group age = .middle ↔ 11 ≤ age ∧ age ≤ 13) ∧
    (get_detailed_age_group age = .secondary ↔ 14 ≤ age) := by
  unfold get_detailed_age_group
  split_ifs <;> refine ⟨?_, ?_, ?_, ?_, ?_⟩ <;>
    simp only [reduceCtorEq, iff_false, not_and, not_le, true_iff, false_iff] <;>
    omega

/-- Witness for C3 at the boundary age 5. -/
theorem age_group_partition_witness :
    (3 : ℤ) ≤ 5 ∧ (5 : ℤ) ≤ 18 ∧ (get_detailed_age_group 5 = .pre_primary ↔ (5 : ℤ) ≤ 5) :=
  ⟨by norm_num, by norm_num, (age_group_partition 5 (by norm_num) (by norm_num)).1⟩

/-! ## C1: every scorer's score lies in [0, 100] -/

theorem clarity_score_bounds (age : ℤ) (words : List Word) :
    0 ≤ (clarity_evaluate age words).score ∧ (clarity_evaluate age words).score ≤ 100 := by
  unfold clarity_evaluate
  split
  · exact ⟨le_refl 0, by norm_num⟩
  · exact ⟨clamp_score_nonneg _, clamp_score_le _⟩

theorem pace_score_bounds (age : ℤ) (words : List Word) (dur : ℚ) :
    0 ≤ (pace_evaluate age words dur).score ∧ (pace_evaluate age words dur).score ≤ 100 := by
  unfold pace_evaluate
  split
  · exact ⟨le_refl 0, by norm_num⟩
  · exact ⟨clamp_score_nonneg _, clamp_score_le _⟩

theorem pause_score_bounds (age : ℤ) (words : List Word) :
    0 ≤ (pause_evaluate age words).score ∧ (pause_evaluate age words).score ≤ 100 := by
  unfold pause_evaluate
  split
  · exact ⟨by norm_num, le_refl 100⟩
  · exact ⟨clamp_score_nonneg _, clamp_score_le _⟩

theorem filler_score_bounds (age : ℤ) (words : List Word) :
    0 ≤ (fillers_evaluate age words).score ∧ (fillers_evaluate age words).score ≤ 100 := by
  unfold fillers_evaluate
  split
  · exact ⟨by norm_num, le_refl 100⟩
  · exact ⟨clamp_score_nonneg _, clamp_score_le _⟩

theorem repetition_score_bounds (age : ℤ) (words : List Word) :
    0 ≤ (repetition_evaluate age words).score ∧
      (repetition_evaluate age words).score ≤ 100 := by
  unfold repetition_evaluate
  split
  · exact ⟨by norm_num, le_refl 100⟩
  · exact ⟨clamp_score_nonneg _, clamp_score_le _⟩

theorem structure_score_bounds (age : ℤ) (full_text : String) (nsegments : ℕ) :
    0 ≤ (structure_evaluate age full_text nsegments).score ∧
      (structure_evaluate age full_text nsegments).score ≤ 100 := by
  unfold structure_evaluate
  split
  · exact ⟨le_refl 0, by norm_num⟩
  · exact ⟨clamp_score_nonneg _, clamp_score_le _⟩

theorem loudness_score_bounds (age : ℤ) (af : AudioFeatures) :
    0 ≤ (loudness_evaluate age af).score ∧ (loudness_evaluate age af).score ≤ 100 := by
  unfold loudness_evaluate
  dsimp only
  split
  · exact ⟨le_refl 0, by norm_num⟩
  · exact ⟨clamp_score_nonneg _, clamp_score_le _⟩

theorem pre_primary_pitch_adjust_bounds (g : AgeGroup) (s1 : ℤ)
    (h0 : 0 ≤ s1) (h1 : s1 ≤ 100) :
    0 ≤ pre_primary_pitch_adjust g s1 ∧ pre_primary_pitch_adjust g s1 ≤ 100 := by
  unfold pre_primary_pitch_adjust
  split <;> omega

theorem young_stamina_boost_bounds (g : AgeGroup) (s1 : ℤ)
    (h0 : 0 ≤ s1) (h1 : s1 ≤ 100) :
    0 ≤ young_stamina_boost g s1 ∧ young_stamina_boost g s1 ≤ 100 := by
  unfold young_stamina_boost
  split <;> omega

theorem pitch_score_bounds (age : ℤ) (af : AudioFeatures) :
    0 ≤ (pitch_variation_evaluate age af).score ∧
      (pitch_variation_evaluate age af).score ≤ 100 := by
  unfold pitch_variation_evaluate
  dsimp only
  split
  · split
    · exact ⟨by norm_num, by norm_num⟩
    · exact ⟨by norm_num, by norm_num⟩
  · exact pre_primary_pitch_adjust_bounds _ _ (clamp_score_nonneg _) (clamp_score_le _)

theorem stamina_score_bounds (age : ℤ) (af : AudioFeatures) :
    0 ≤ (stamina_evaluate age af).score ∧ (stamina_evaluate age af).score ≤ 100 := by
  unfold stamina_evaluate
  dsimp only
  split
  · exact ⟨by norm_num, le_refl 100⟩
  · split
    · exact ⟨by norm_num, by norm_num⟩
    · exact young_stamina_boost_bounds _ _ (clamp_score_nonneg _) (clamp_score_le _)

/-- C1: for every input — empty, degenerate or invalid-audio inputs
included — each of the nine metric scorers returns an integer score with
`0 ≤ score ≤ 100`. -/
theorem all_scores_in_range (age : ℤ) (words : List Word) (full_text : String)
    (nsegments : ℕ) (dur : ℚ) (af : AudioFeatures) :
    (0 ≤ (clarity_evaluate age words).score ∧ (clarity_evaluate age words).score ≤ 100) ∧
    (0 ≤ (pace_evaluate age words dur).score ∧ (pace_evaluate age words dur).score ≤ 100) ∧
    (0 ≤ (pause_evaluate age words).score ∧ (pause_evaluate age words).score ≤ 100) ∧
    (0 ≤ (fillers_evaluate age words).score ∧ (fillers_evaluate age words).score ≤ 100) ∧
    (0 ≤ (repetition_evaluate age words).score ∧
      (repetition_evaluate age words).score ≤ 100) ∧
    (0 ≤ (structure_evaluate age full_text nsegments).score ∧
      (structure_evaluate age full_text nsegments).score ≤ 100) ∧
    (0 ≤ (loudness_evaluate age af).score ∧ (loudness_evaluate age af).score ≤ 100) ∧
    (0 ≤ (pitch_variation_evaluate age af).score ∧
      (pitch_variation_evaluate age af).score ≤ 100) ∧
    (0 ≤ (stamina_evaluate age af).score ∧ (stamina_evaluate age af).score ≤ 100) :=
  ⟨clarity_score_bounds age words, pace_score_bounds age words dur,
    pause_score_bounds age words, filler_score_bounds age words,
    repetition_score_bounds age words, structure_score_bounds age full_text nsegments,
    loudness_score_bounds age af, pitch_score_bounds age af, stamina_score_bounds age af⟩

/-! ## Cast helpers -/

theorem pyInt_intCast (z : ℤ) : pyInt (z : ℚ) = z := by
  unfold pyInt
  split
  · exact Int.ceil_intCast z
  · exact Int.floor_intCast z

theorem clamp_score_intCast (z : ℤ) : clamp_score (z : ℚ) = max 0 (min 100 z) := by
  unfold clamp_score
  rw [pyInt_intCast]

theorem isEmpty_false_of_ne_nil {α : Type} {l : List α} (h : l ≠ []) :
    l.isEmpty = false := by
  cases l with
  | nil => exact absurd rfl h
  | cons a t => rfl

/-! ## C6: the clarity score truncates the scaled mean confidence -/

/-- C6 counterexample: on two words with confidences 3/4 and 1 the mean is
7/8, so the claimed score `clamp(round(mean×100))` is 88, but the code
truncates (`int(...)`) and returns 87. -/
theorem clarity_round_counterexample :
    (clarity_evaluate 10 cwords).score = 87 ∧
    max 0 (min 100 (pyRoundHalfEven (mean (cwords.map (fun w => w.confidence)) * 100))) = 88 ∧
    (clarity_evaluate 10 cwords).score ≠
      max 0 (min 100 (pyRoundHalfEven (mean (cwords.map (fun w => w.confidence)) * 100))) := by
  refine ⟨?_, ?_, ?_⟩ <;> decide

/-- C6 amended: for every non-empty word list the clarity score equals
`clamp(int(mean(confidence)×100))`, where `int` truncates toward zero (not
rounds to nearest). -/
theorem clarity_truncates (age : ℤ) (words : List Word) (h : words ≠ []) :
    (clarity_evaluate age words).score =
      clamp_score (mean (words.map (fun w => w.confidence)) * 100) := by
  unfold clarity_evaluate
  rw [if_neg (by rw [isEmpty_false_of_ne_nil h]; simp)]

/-- Witness for the amended C6 at a concrete word list. -/
theorem clarity_truncates_witness :
    cwords ≠ [] ∧
    (clarity_evaluate 10 cwords).score =
      clamp_score (mean (cwords.map (fun w => w.confidence)) * 100) :=
  ⟨by decide, clarity_truncates 10 cwords (by decide)⟩

/-! ## C7: the pace scorer -/

theorem wpm_range_facts (g : AgeGroup) :
    0 < (wpm_range g).1 ∧ (wpm_range g).1 ≤ (wpm_range g).2 := by
  cases g <;> exact ⟨by norm_num [wpm_range], by norm_num [wpm_range]⟩

/-- C7: with no words or zero duration the pace score is 0 with feedback
"No speech detected"; a words-per-minute value exactly at the age band
boundary scores 100; below the band the score is `clamp(100·wpm/min)` and
above it `clamp(100·max/wpm)`, clamped to an integer in [0, 100]. -/
theorem pace_metric_spec (age : ℤ) (words : List Word) (dur : ℚ) :
    ((words = [] ∨ dur = 0) →
      (pace_evaluate age words dur).score = 0 ∧
        (pace_evaluate age words dur).feedback = ["No speech detected"]) ∧
    (words ≠ [] → dur ≠ 0 →
      ((computed_wpm words dur = (wpm_range (get_detailed_age_group age)).1 ∨
          computed_wpm words dur = (wpm_range (get_detailed_age_group age)).2) →
        (pace_evaluate age words dur).score = 100) ∧
      (computed_wpm words dur < (wpm_range (get_detailed_age_group age)).1 →
        (pace_evaluate age words dur).score =
          clamp_score (100 *
            (computed_wpm words dur / (wpm_range (get_detailed_age_group age)).1))) ∧
      ((wpm_range (get_detailed_age_group age)).2 < computed_wpm words dur →
        (pace_evaluate age words dur).score =
          clamp_score (100 *
            ((wpm_range (get_detailed_age_group age)).2 / computed_wpm words dur)))) := by
  obtain ⟨hpos, hle⟩ := wpm_range_facts (get_detailed_age_group age)
  constructor
  · intro h
    have hc : (words.isEmpty || dur == 0) = true := by
      rcases h with h | h
      · subst h; simp
      · subst h; simp
    unfold pace_evaluate
    rw [if_pos hc]
    exact ⟨rfl, rfl⟩
  · intro h1 h2
    have hc : ¬((words.isEmpty || dur == 0) = true) := by
      simp [isEmpty_false_of_ne_nil h1, h2]
    unfold pace_evaluate
    rw [if_neg hc]
    dsimp only
    refine ⟨?_, ?_, ?_⟩
    · rintro (hb | hb)
      · rw [if_pos ⟨hb.ge, hb.le.trans hle⟩, clamp_score_intCast]
        norm_num
      · rw [if_pos ⟨hle.trans hb.ge, hb.le⟩, clamp_score_intCast]
        norm_num
    · intro hlt
      rw [if_neg (fun hcon => absurd hcon.1 (not_le.mpr hlt)), if_pos hlt, if_pos hpos,
        clamp_score_intCast]
      unfold clamp_score
      rw [mul_comm (computed_wpm words dur / (wpm_range (get_detailed_age_group age)).1) 100]
    · intro hgt
      have hwpos : 0 < computed_wpm words dur := hpos.trans_le (hle.trans hgt.le)
      rw [if_neg (fun hcon => absurd hcon.2 (not_le.mpr hgt)),
        if_neg (not_lt.mpr (hle.trans hgt.le)), if_pos hwpos, clamp_score_intCast]
      unfold clamp_score
      rw [mul_comm ((wpm_range (get_detailed_age_group age)).2 / computed_wpm words dur) 100]

/-- Witness for C7: eight words over six seconds give exactly 80 wpm, the
lower band boundary for age 10, and the score is 100. -/
theorem pace_metric_spec_witness :
    paceWitnessWords ≠ [] ∧ (6 : ℚ) ≠ 0 ∧
    computed_wpm paceWitnessWords 6 = (wpm_range (get_detailed_age_group 10)).1 ∧
    (pace_evaluate 10 paceWitnessWords 6).score = 100 :=
  ⟨by decide, by decide, by decide,
    ((pace_metric_spec 10 paceWitnessWords 6).2 (by decide) (by decide)).1
      (Or.inl (by decide))⟩

/-! ## C8: the filler scorer at the tolerance boundaries -/

/-- C8: on a non-empty word list, a filler ratio exactly equal to the age
bracket's tolerance scores 100, and a ratio of exactly twice the tolerance
scores `max(0, 100 − tolerance×300)`. -/
theorem filler_metric_spec (age : ℤ) (words : List Word) (h : words ≠ []) :
    (fillerFrac words = filler_tolerance (get_detailed_age_group age) →
      (fillers_evaluate age words).score = 100) ∧
    (fillerFrac words = 2 * filler_tolerance (get_detailed_age_group age) →
      ((fillers_evaluate age words).score : ℚ) =
        max 0 (100 - filler_tolerance (get_detailed_age_group age) * 300)) := by
  unfold fillers_evaluate
  rw [if_neg (by simp [isEmpty_false_of_ne_nil h])]
  dsimp only
  constructor
  · intro hf
    simp only [hf]
    rw [if_pos le_rfl, clamp_score_intCast]
    norm_num
  · intro hf
    simp only [hf]
    cases hg : get_detailed_age_group age <;> decide

/-- Witness for C8: for age 10 (tolerance 0.10), ten words with exactly one
filler token "um" give a filler ratio of exactly the tolerance, and the
score is 100. -/
theorem filler_metric_spec_witness :
    fillerWitnessWords ≠ [] ∧
    fillerFrac fillerWitnessWords = filler_tolerance (get_detailed_age_group 10) ∧
    (fillers_evaluate 10 fillerWitnessWords).score = 100 :=
  ⟨by decide, by decide,
    (filler_metric_spec 10 fillerWitnessWords (by decide)).1 (by decide)⟩

/-! ## C5: audio defaults and the overall aggregation -/

/-- C5: when the audio features are absent or `is_valid()` is false, each of
the three audio sub-results has score 70 and classification
"not_analyzed"; and in every case the overall score equals
`round(Σ weight_i·score_i, 1)` over the nine metric results, using the
weight row of the student's age group. -/
theorem evaluator_defaults_and_overall (age : ℤ) (words : List Word) (full_text : String)
    (nsegments : ℕ) (dur : ℚ) (af : Option AudioFeatures) :
    (af.elim True (fun a => a.is_valid = false) →
      (evaluate_all age words full_text nsegments dur af).loudness.score = 70 ∧
      (evaluate_all age words full_text nsegments dur af).loudness.classification =
        "not_analyzed" ∧
      (evaluate_all age words full_text nsegments dur af).pitch_variation.score = 70 ∧
      (evaluate_all age words full_text nsegments dur af).pitch_variation.classification =
        "not_analyzed" ∧
      (evaluate_all age words full_text nsegments dur af).stamina.score = 70 ∧
      (evaluate_all age words full_text nsegments dur af).stamina.classification =
        "not_analyzed") ∧
    (evaluate_all age words full_text nsegments dur af).overall =
      pyRound1 (overall_formula age (evaluate_all age words full_text nsegments dur af)) := by
  constructor
  · intro hinv
    cases af with
    | none => exact ⟨rfl, rfl, rfl, rfl, rfl, rfl⟩
    | some a =>
      have hv : a.is_valid = false := hinv
      unfold evaluate_all
      dsimp only
      rw [hv]
      exact ⟨rfl, rfl, rfl, rfl, rfl, rfl⟩
  · rfl

/-- Witness for C5: absent audio features at a concrete input. -/
theorem evaluator_defaults_witness :
    ((none : Option AudioFeatures).elim True (fun a => a.is_valid = false)) ∧
    (evaluate_all 10 [] "" 0 30 none).loudness.score = 70 :=
  ⟨trivial, ((evaluator_defaults_and_overall 10 [] "" 0 30 none).1 trivial).1⟩

/-! ## C4: empty word list with valid audio -/

/-- C4 counterexample: for an age-10 student with an empty word list, empty
transcript and valid audio (loudness 100, pitch variation 90, stamina 100),
clarity and pace score 0 and pause scores 100 as claimed, but the overall
score is 59.0: it is neither the weight-row combination of only the three
audio sub-scores (29.0) nor the renormalized `AUDIO_METRIC_WEIGHTS`
combination (96.5), because pause, filler and repetition contribute their
full 100-point scores. -/
theorem empty_words_overall_counterexample :
    afValid.is_valid = true ∧
    (evaluate_all 10 [] "" 0 30 (some afValid)).clarity.score = 0 ∧
    (evaluate_all 10 [] "" 0 30 (some afValid)).pace.score = 0 ∧
    (evaluate_all 10 [] "" 0 30 (some afValid)).pause_management.score = 100 ∧
    (evaluate_all 10 [] "" 0 30 (some afValid)).overall = 59 ∧
    (evaluate_all 10 [] "" 0 30 (some afValid)).overall ≠
      ((evaluate_all 10 [] "" 0 30 (some afValid)).loudness.score : ℚ) *
          (METRIC_WEIGHTS (get_detailed_age_group 10)).loudness +
        ((evaluate_all 10 [] "" 0 30 (some afValid)).pitch_variation.score : ℚ) *
          (METRIC_WEIGHTS (get_detailed_age_group 10)).pitch_variation +
        ((evaluate_all 10 [] "" 0 30 (some afValid)).stamina.score : ℚ) *
          (METRIC_WEIGHTS (get_detailed_age_group 10)).stamina ∧
    (evaluate_all 10 [] "" 0 30 (some afValid)).overall ≠
      ((evaluate_all 10 [] "" 0 30 (some afValid)).loudness.score : ℚ) *
          (AUDIO_METRIC_WEIGHTS (get_detailed_age_group 10)).loudness +
        ((evaluate_all 10 [] "" 0 30 (some afValid)).pitch_variation.score : ℚ) *
          (AUDIO_METRIC_WEIGHTS (get_detailed_age_group 10)).pitch_variation +
        ((evaluate_all 10 [] "" 0 30 (some afValid)).stamina.score : ℚ) *
          (AUDIO_METRIC_WEIGHTS (get_detailed_age_group 10)).stamina := by
  refine ⟨?_, ?_, ?_, ?_, ?_, ?_, ?_⟩ <;> decide

/-- C4 amended: with an empty word list and valid audio features, clarity
and pace score 0, the pause result is 100 with the not-enough-speech
feedback, filler and repetition also score 100, and the overall score is
`round(Σ weight_i·score_i, 1)` over all nine metrics — the three
full-scoring transcript metrics and the structure score included, not the
audio sub-scores alone. -/
theorem empty_words_eval (age : ℤ) (full_text : String) (nsegments : ℕ) (dur : ℚ)
    (af : AudioFeatures) (hv : af.is_valid = true) :
    (evaluate_all age [] full_text nsegments dur (some af)).clarity.score = 0 ∧
    (evaluate_all age [] full_text nsegments dur (some af)).pace.score = 0 ∧
    (evaluate_all age [] full_text nsegments dur (some af)).pause_management.score = 100 ∧
    (evaluate_all age [] full_text nsegments dur (some af)).pause_management.feedback =
      ["Not enough speech to evaluate pauses"] ∧
    (evaluate_all age [] full_text nsegments dur (some af)).filler_reduction.score = 100 ∧
    (evaluate_all age [] full_text nsegments dur (some af)).repetition_control.score = 100 ∧
    (evaluate_all age [] full_text nsegments dur (some af)).overall =
      pyRound1 (
        100 * (METRIC_WEIGHTS (get_detailed_age_group age)).pause +
        100 * (METRIC_WEIGHTS (get_detailed_age_group age)).filler +
        100 * (METRIC_WEIGHTS (get_detailed_age_group age)).repetition +
        ((structure_evaluate age full_text nsegments).score : ℚ) *
          (METRIC_WEIGHTS (get_detailed_age_group age)).structure_ +
        ((loudness_evaluate age af).score : ℚ) *
          (METRIC_WEIGHTS (get_detailed_age_group age)).loudness +
        ((pitch_variation_evaluate age af).score : ℚ) *
          (METRIC_WEIGHTS (get_detailed_age_group age)).pitch_variation +
        ((stamina_evaluate age af).score : ℚ) *
          (METRIC_WEIGHTS (get_detailed_age_group age)).stamina) := by
  unfold evaluate_all
  dsimp only
  rw [hv]
  simp only [if_true]
  refine ⟨rfl, rfl, rfl, rfl, rfl, rfl, ?_⟩
  congr 1
  have h1 : (clarity_evaluate age []).score = 0 := rfl
  have h2 : ∀ d : ℚ, (pace_evaluate age [] d).score = 0 := fun _ => rfl
  have h3 : (pause_evaluate age []).score = 100 := rfl
  have h4 : (fillers_evaluate age []).score = 100 := rfl
  have h5 : (repetition_evaluate age []).score = 100 := rfl
  rw [h1, h2, h3, h4, h5]
  push_cast
  ring

/-- Witness for the amended C4 at concrete inputs. -/
theorem empty_words_eval_witness :
    afValid.is_valid = true ∧
    (evaluate_all 10 [] "" 0 30 (some afValid)).clarity.score = 0 :=
  ⟨by decide, (empty_words_eval 10 "" 0 30 afValid (by decide)).1⟩

/-! ## C10: the upper-primary improvement tip -/

theorem foldr_min_le_seed (l : List ℤ) (a : ℤ) : l.foldr min a ≤ a := by
  induction l with
  | nil => exact le_refl a
  | cons x xs ih => exact (min_le_right x (xs.foldr min a)).trans ih

theorem foldr_min_absorb (l : List ℤ) (a b : ℤ) (h : a ≤ b) :
    min a (l.foldr min b) = l.foldr min a := by
  induction l with
  | nil => exact min_eq_left h
  | cons x xs ih =>
    show min a (min x (xs.foldr min b)) = min x (xs.foldr min a)
    rw [min_left_comm, ih]

theorem foldr_min_attained (l : List ℤ) (a : ℤ) :
    l.foldr min a = a ∨ ∃ b ∈ l, l.foldr min a = b := by
  induction l with
  | nil => exact Or.inl rfl
  | cons x xs ih =>
    show min x (xs.foldr min a) = a ∨ ∃ b ∈ x :: xs, min x (xs.foldr min a) = b
    rcases le_total x (xs.foldr min a) with h | h
    · exact Or.inr ⟨x, List.mem_cons_self x xs, min_eq_left h⟩
    · rcases ih with h1 | ⟨b, hb, h2⟩
      · exact Or.inl ((min_eq_right h).trans h1)
      · exact Or.inr ⟨b, List.mem_cons_of_mem x hb, (min_eq_right h).trans h2⟩

/-- Python's `min(d, key=d.get)` keeps the first entry attaining the
minimal value: it equals `find?` for the fold-minimum over the list. -/
theorem pyMinBy_eq_find (l : List (UPMetric × ℤ)) (best : UPMetric × ℤ) :
    pyMinBy best l =
      ((best :: l).find?
        (fun x => x.2 == (l.map Prod.snd).foldr min best.2)).getD best := by
  induction l generalizing best with
  | nil => simp [pyMinBy, List.find?]
  | cons x xs ih =>
    by_cases hx : x.2 < best.2
    · have hM : ((x :: xs).map Prod.snd).foldr min best.2 =
          (xs.map Prod.snd).foldr min x.2 := by
        show min x.2 ((xs.map Prod.snd).foldr min best.2) = _
        exact foldr_min_absorb _ _ _ hx.le
      have hMle : (xs.map Prod.snd).foldr min x.2 ≤ x.2 := foldr_min_le_seed _ _
      simp only [pyMinBy]
      rw [if_pos hx, ih x, hM]
      have hbest : ¬ ((fun y : UPMetric × ℤ =>
          y.2 == List.foldr min x.2 (List.map Prod.snd xs)) best) = true := by
        simp only [beq_iff_eq]
        omega
      rw [@List.find?_cons_of_neg _ (fun y : UPMetric × ℤ =>
        y.2 == List.foldr min x.2 (List.map Prod.snd xs)) best (x :: xs) hbest]
      have hex : ∃ y ∈ x :: xs,
          (y.2 == List.foldr min x.2 (List.map Prod.snd xs)) = true := by
        rcases foldr_min_attained (xs.map Prod.snd) x.2 with h | ⟨b, hb, h2⟩
        · exact ⟨x, List.mem_cons_self x xs, by simp [h]⟩
        · obtain ⟨y, hy, hy2⟩ := List.mem_map.mp hb
          exact ⟨y, List.mem_cons_of_mem x hy, by simp [h2, hy2]⟩
      obtain ⟨y, hymem, hyp⟩ := hex
      obtain ⟨z, hz⟩ := Option.isSome_iff_exists.mp
        ((@List.find?_isSome _ (x :: xs) (fun y : UPMetric × ℤ =>
          y.2 == List.foldr min x.2 (List.map Prod.snd xs))).mpr ⟨y, hymem, hyp⟩)
      rw [hz]
      rfl
    · have hxle : best.2 ≤ x.2 := not_lt.mp hx
      have hM : ((x :: xs).map Prod.snd).foldr min best.2 =
          (xs.map Prod.snd).foldr min best.2 := by
        show min x.2 ((xs.map Prod.snd).foldr min best.2) = _
        exact min_eq_right ((foldr_min_le_seed _ _).trans hxle)
      simp only [pyMinBy]
      rw [if_neg hx, ih best, hM]
      by_cases hb : (best.2 == List.foldr min best.2 (List.map Prod.snd xs)) = true
      · have hb' : ((fun y : UPMetric × ℤ =>
            y.2 == List.foldr min best.2 (List.map Prod.snd xs)) best) = true := hb
        rw [@List.find?_cons_of_pos _ (fun y : UPMetric × ℤ =>
          y.2 == List.foldr min best.2 (List.map Prod.snd xs)) best xs hb',
          @List.find?_cons_of_pos _ (fun y : UPMetric × ℤ =>
          y.2 == List.foldr min best.2 (List.map Prod.snd xs)) best (x :: xs) hb']
      · have hbf : ¬ ((fun y : UPMetric × ℤ =>
            y.2 == List.foldr min best.2 (List.map Prod.snd xs)) best) = true := hb
        have hA := foldr_min_le_seed (xs.map Prod.snd) best.2
        have hbne : best.2 ≠ List.foldr min best.2 (List.map Prod.snd xs) := by
          simpa using hb
        have hxf : ¬ ((fun y : UPMetric × ℤ =>
            y.2 == List.foldr min best.2 (List.map Prod.snd xs)) x) = true := by
          simp only [beq_iff_eq]
          omega
        rw [@List.find?_cons_of_neg _ (fun y : UPMetric × ℤ =>
          y.2 == List.foldr min best.2 (List.map Prod.snd xs)) best xs hbf,
          @List.find?_cons_of_neg _ (fun y : UPMetric × ℤ =>
          y.2 == List.foldr min best.2 (List.map Prod.snd xs)) best (x :: xs) hbf,
          @List.find?_cons_of_neg _ (fun y : UPMetric × ℤ =>
          y.2 == List.foldr min best.2 (List.map Prod.snd xs)) x xs hxf]

/-- C10: the upper-primary presentation carries exactly one improvement
tip (a single `improvement_tip` field), and it equals the spec's rule: the
tip of the first pooled metric (in the declared order loudness, clarity,
pitch_variation, pace, stamina, filler, structure) attaining the global
minimum score, or the generic praise tip when that minimum is ≥ 80. -/
theorem upper_primary_tip_spec (s : ScoresDict) (dur : ℚ) :
    (upper_primary_transform s dur).improvement_tip = specTip s := by
  show get_improvement_tip s = specTip s
  unfold get_improvement_tip specTip
  rw [pyMinBy_eq_find]
  dsimp only
  have hpool : ((UPMetric.loudness, s.loudness) : UPMetric × ℤ) :: (upMetricScores s).tail =
      upMetricScores s := rfl
  rw [hpool]
  have hm : List.foldr min s.loudness (List.map Prod.snd (upMetricScores s)) =
      List.foldr min s.loudness (List.map Prod.snd (upMetricScores s).tail) :=
    foldr_min_absorb (List.map Prod.snd (upMetricScores s).tail) s.loudness s.loudness le_rfl
  rw [hm]
  have hex : ∃ y ∈ upMetricScores s,
      (y.2 == List.foldr min s.loudness (List.map Prod.snd (upMetricScores s).tail)) = true := by
    rcases foldr_min_attained (List.map Prod.snd (upMetricScores s).tail) s.loudness with
      h | ⟨b, hb, h2⟩
    · exact ⟨(UPMetric.loudness, s.loudness), hpool ▸ List.mem_cons_self _ _,
        by simp only [h]; exact beq_self_eq_true _⟩
    · obtain ⟨y, hy, hy2⟩ := List.mem_map.mp hb
      refine ⟨y, ?_, by simp only [h2, hy2, beq_self_eq_true]⟩
      exact hpool ▸ List.mem_cons_of_mem _ hy
  obtain ⟨y, hymem, hyp⟩ := hex
  obtain ⟨z, hz⟩ := Option.isSome_iff_exists.mp
    ((@List.find?_isSome _ (upMetricScores s) (fun y : UPMetric × ℤ =>
      y.2 == List.foldr min s.loudness (List.map Prod.snd (upMetricScores s).tail))).mpr
      ⟨y, hymem, hyp⟩)
  rw [hz]
  dsimp only [Option.getD]
  have hz2 : z.2 = List.foldr min s.loudness (List.map Prod.snd (upMetricScores s).tail) := by
    simpa using List.find?_some hz
  rw [hz2]

/-! ## C9: characters of rendered integers -/

theorem digChar_charOK (m : ℕ) : charOK (digChar m) := by
  unfold digChar
  split <;> decide

theorem natDigsAux_charOK (n : ℕ) : ∀ acc, (∀ c ∈ acc, charOK c) →
    ∀ c ∈ natDigsAux n acc, charOK c := by
  induction n using Nat.strong_induction_on with
  | _ n ih =>
    intro acc hacc c hc
    rw [natDigsAux] at hc
    by_cases h : n / 10 = 0
    · rw [dif_pos h] at hc
      rcases List.mem_cons.mp hc with h1 | h1
      · exact h1 ▸ digChar_charOK (n % 10)
      · exact hacc c h1
    · rw [dif_neg h] at hc
      have hn : 0 < n := by
        rcases Nat.eq_zero_or_pos n with h0 | h0
        · exact absurd (by rw [h0]) h
        · exact h0
      refine ih (n / 10) (Nat.div_lt_self hn (by norm_num)) _ ?_ c hc
      intro c' hc'
      rcases List.mem_cons.mp hc' with h1 | h1
      · exact h1 ▸ digChar_charOK (n % 10)
      · exact hacc c' h1

theorem natDigsAux_ne_nil (n : ℕ) : ∀ acc, natDigsAux n acc ≠ [] := by
  induction n using Nat.strong_induction_on with
  | _ n ih =>
    intro acc
    rw [natDigsAux]
    by_cases h : n / 10 = 0
    · rw [dif_pos h]
      exact List.cons_ne_nil _ _
    · rw [dif_neg h]
      have hn : 0 < n := by
        rcases Nat.eq_zero_or_pos n with h0 | h0
        · exact absurd (by rw [h0]) h
        · exact h0
      exact ih (n / 10) (Nat.div_lt_self hn (by norm_num)) _

theorem intStr_charOK (z : ℤ) : ∀ c ∈ (intStr z).data, charOK c := by
  unfold intStr natStr
  split
  · intro c hc
    rcases List.mem_cons.mp hc with h | h
    · exact h ▸ (by decide)
    · exact natDigsAux_charOK _ _ (fun c' hc' => absurd hc' (List.not_mem_nil c')) c h
  · intro c hc
    exact natDigsAux_charOK _ _ (fun c' hc' => absurd hc' (List.not_mem_nil c')) c hc

theorem intStr_data_ne_nil (z : ℤ) : (intStr z).data ≠ [] := by
  unfold intStr natStr
  split
  · exact List.cons_ne_nil _ _
  · exact natDigsAux_ne_nil _ _

theorem natStr_charOK (n : ℕ) : ∀ c ∈ (natStr n).data, charOK c := by
  unfold natStr
  exact natDigsAux_charOK _ _ (fun c' hc' => absurd hc' (List.not_mem_nil c'))

theorem natStr_data_ne_nil (n : ℕ) : (natStr n).data ≠ [] := by
  unfold natStr
  exact natDigsAux_ne_nil _ _

theorem charOK_toLower {c : Char} (h : charOK c) : Char.toLower c = c := by
  unfold Char.toLower
  rcases h with h | ⟨h1, h2⟩
  · rw [if_neg (by omega)]
  · rw [if_neg (by omega)]

theorem lowerL_charOK_id (l : List Char) (h : ∀ c ∈ l, charOK c) :
    l.map Char.toLower = l := by
  induction l with
  | nil => rfl
  | cons c t ih =>
    rw [List.map_cons, charOK_toLower (h c (List.mem_cons_self c t)),
      ih (fun c' hc' => h c' (List.mem_cons_of_mem c hc'))]

/-! ## C9: a pattern without digits cannot straddle a rendered number -/

theorem leadMatch_le_len : ∀ (p x z : List Char), leadMatch p (x ++ z) = true →
    p.length ≤ x.length → leadMatch p x = true := by
  intro p
  induction p with
  | nil => intro x z _ _; rfl
  | cons a p ih =>
    intro x z h hl
    cases x with
    | nil => simp at hl
    | cons b x' =>
      simp only [List.cons_append, leadMatch, Bool.and_eq_true] at h
      simp only [leadMatch, Bool.and_eq_true]
      exact ⟨h.1, ih x' z h.2 (by simpa using hl)⟩

theorem leadMatch_cross : ∀ (p x : List Char) (d : Char) (z : List Char),
    leadMatch p (x ++ d :: z) = true → x.length < p.length → d ∈ p := by
  intro p
  induction p with
  | nil => intro x d z _ hl; simp at hl
  | cons a p ih =>
    intro x d z h hl
    cases x with
    | nil =>
      simp only [List.nil_append, leadMatch, Bool.and_eq_true] at h
      have had : a = d := by simpa using h.1
      exact had ▸ List.mem_cons_self a p
    | cons b x' =>
      simp only [List.cons_append, leadMatch, Bool.and_eq_true] at h
      exact List.mem_cons_of_mem a (ih x' d z h.2 (by simpa using hl))

theorem occursIn_mid : ∀ (mid p y : List Char), p ≠ [] →
    (∀ c ∈ mid, c ∉ p) → occursIn p (mid ++ y) = true → occursIn p y = true := by
  intro mid
  induction mid with
  | nil => intro p y _ _ h; simpa using h
  | cons d m ih =>
    intro p y hp hd h
    simp only [List.cons_append, occursIn, Bool.or_eq_true] at h
    rcases h with h | h
    · cases p with
      | nil => exact absurd rfl hp
      | cons a p' =>
        simp only [leadMatch, Bool.and_eq_true] at h
        have had : a = d := by simpa using h.1
        have hdin : d ∈ a :: p' := by
          rw [had]
          exact List.mem_cons_self d p'
        exact absurd hdin (hd d (List.mem_cons_self d m))
    · exact ih p y hp (fun c hc => hd c (List.mem_cons_of_mem d hc)) h

theorem occursIn_append3 : ∀ (x p mid y : List Char), p ≠ [] → mid ≠ [] →
    (∀ c ∈ mid, c ∉ p) → occursIn p (x ++ mid ++ y) = true →
    occursIn p x = true ∨ occursIn p y = true := by
  intro x
  induction x with
  | nil =>
    intro p mid y hp hm hd h
    exact Or.inr (occursIn_mid mid p y hp hd (by simpa using h))
  | cons b x' ih =>
    intro p mid y hp hm hd h
    simp only [List.cons_append, occursIn, Bool.or_eq_true] at h
    rcases h with h | h
    · rcases le_or_lt p.length (b :: x').length with hl | hl
      · left
        have hlm : leadMatch p (b :: x') = true := by
          refine leadMatch_le_len p (b :: x') (mid ++ y) ?_ hl
          simpa [List.append_assoc] using h
        show (leadMatch p (b :: x') || occursIn p x') = true
        rw [hlm]
        rfl
      · cases mid with
        | nil => exact absurd rfl hm
        | cons d m' =>
          have hd' : d ∈ p := by
            refine leadMatch_cross p (b :: x') d (m' ++ y) ?_ hl
            simpa [List.append_assoc] using h
          exact absurd hd' (hd d (List.mem_cons_self d m'))
    · rcases ih p mid y hp hm hd h with hres | hres
      · left
        show (leadMatch p (b :: x') || occursIn p x') = true
        rw [hres]
        simp
      · exact Or.inr hres

/-- A feedback template of the shape `prefix ++ number ++ suffix` cannot
contain "not analyzed" when neither fixed part does: the rendered number
consists of digit/minus characters, none of which occur in the pattern. -/
theorem strIn_patNA_wrap (t1 numS t2 : String)
    (hnum : numS.data ≠ []) (hok : ∀ c ∈ numS.data, charOK c)
    (h1 : strIn ("not analyzed") (pyLower t1) = false)
    (h2 : strIn ("not analyzed") (pyLower t2) = false) :
    strIn ("not analyzed") (pyLower (t1 ++ numS ++ t2)) = false := by
  show occursIn ("not analyzed").data ((t1 ++ numS ++ t2).data.map Char.toLower) = false
  rw [String.data_append, String.data_append, List.map_append, List.map_append,
    lowerL_charOK_id numS.data hok]
  by_contra hcon
  rcases Bool.eq_false_or_eq_true (occursIn ("not analyzed").data
      (t1.data.map Char.toLower ++ numS.data ++ t2.data.map Char.toLower)) with hoc | hoc
  case inr => exact hcon hoc
  case inl =>
    have hdisj : ∀ c ∈ numS.data, c ∉ ("not analyzed").data := by
      intro c hc hmem
      exact (by decide : ∀ c ∈ ("not analyzed").data, ¬ charOK c) c hmem (hok c hc)
    rcases occursIn_append3 (t1.data.map Char.toLower) ("not analyzed").data numS.data
      (t2.data.map Char.toLower) (by decide) hnum hdisj hoc with hres | hres
    · exact absurd hres (ne_true_of_eq_false h1)
    · exact absurd hres (ne_true_of_eq_false h2)

/-! ## C9: no feedback string of any scorer contains "not analyzed" -/

theorem clarity_feedback_noNA (g : AgeGroup) (score : ℤ) :
    noNotAnalyzed (clarity_feedback g score) := by
  intro f hf
  unfold clarity_feedback at hf
  split at hf <;> (try split at hf) <;> (try split at hf) <;>
    (simp only [List.mem_singleton] at hf; subst hf; decide)

theorem pace_feedback_noNA (g : AgeGroup) (wpm imin imax : ℚ) :
    noNotAnalyzed (pace_feedback g wpm imin imax) := by
  intro f hf
  unfold pace_feedback at hf
  split at hf <;> (try split at hf) <;> (try split at hf) <;>
    (simp only [List.mem_singleton] at hf; subst hf;
      exact strIn_patNA_wrap _ _ _ (intStr_data_ne_nil _) (intStr_charOK _)
        (by decide) (by decide))

theorem pause_feedback_noNA (g : AgeGroup) (long_pauses excessive_pauses : ℕ) :
    noNotAnalyzed (pause_feedback g long_pauses excessive_pauses) := by
  intro f hf
  unfold pause_feedback at hf
  split at hf <;> (try split at hf) <;> (try split at hf) <;>
    (simp only [List.mem_singleton] at hf; subst hf) <;>
    first
      | decide
      | exact strIn_patNA_wrap _ _ _ (natStr_data_ne_nil _) (natStr_charOK _)
          (by decide) (by decide)

theorem filler_feedback_noNA (g : AgeGroup) (fcount : ℕ) (ffrac tol : ℚ) :
    noNotAnalyzed (filler_feedback g fcount ffrac tol) := by
  intro f hf
  unfold filler_feedback at hf
  split at hf <;> (try split at hf) <;> (try split at hf) <;>
    (simp only [List.mem_singleton] at hf; subst hf) <;>
    first
      | decide
      | exact strIn_patNA_wrap _ _ _ (natStr_data_ne_nil _) (natStr_charOK _)
          (by decide) (by decide)

theorem repetition_feedback_noNA (g : AgeGroup) (consecutive_repeats repeated_phrases : ℕ) :
    noNotAnalyzed (repetition_feedback g consecutive_repeats repeated_phrases) := by
  intro f hf
  unfold repetition_feedback at hf
  split at hf <;> (try split at hf) <;> (try split at hf) <;>
    (simp only [List.mem_singleton] at hf; subst hf; decide)

theorem structure_feedback_noNA (g : AgeGroup) (has_intro has_conclusion : Bool) :
    noNotAnalyzed (structure_feedback g has_intro has_conclusion) := by
  intro f hf
  unfold structure_feedback at hf
  split at hf <;> (try split at hf) <;> (try split at hf) <;> (try split at hf) <;>
    (try split at hf) <;>
    (simp only [List.mem_singleton] at hf; subst hf; decide)

theorem loudness_feedback_noNA (g : AgeGroup) (classification : String)
    (is_inconsistent : Bool) :
    noNotAnalyzed (loudness_feedback g classification is_inconsistent) := by
  intro f hf
  unfold loudness_feedback at hf
  split at hf <;> (try split at hf) <;> (try split at hf) <;> (try split at hf) <;>
    (try split at hf) <;>
    (simp only [List.mem_append, List.mem_singleton] at hf) <;>
    first
      | (rcases hf with hf | hf <;> (subst hf; decide))
      | (subst hf; decide)

theorem pitch_feedback_noNA (g : AgeGroup) (classification : String) :
    noNotAnalyzed (pitch_feedback g classification) := by
  intro f hf
  unfold pitch_feedback at hf
  split at hf <;> (try split at hf) <;> (try split at hf) <;> (try split at hf) <;>
    (simp only [List.mem_singleton] at hf; subst hf; decide)

theorem stamina_feedback_noNA (g : AgeGroup) (classification : String) :
    noNotAnalyzed (stamina_feedback g classification) := by
  intro f hf
  unfold stamina_feedback at hf
  split at hf <;> (try split at hf) <;> (try split at hf) <;>
    (simp only [List.mem_singleton] at hf; subst hf; decide)

theorem not_analyzed_result_noNA : noNotAnalyzed not_analyzed_result.feedback := by
  intro f hf
  simp only [not_analyzed_result, List.mem_singleton] at hf
  subst hf
  decide

theorem clarity_result_noNA (age : ℤ) (words : List Word) :
    noNotAnalyzed (clarity_evaluate age words).feedback := by
  unfold clarity_evaluate
  split
  · intro f hf
    simp only [List.mem_singleton] at hf
    subst hf
    decide
  · exact clarity_feedback_noNA _ _

theorem pace_result_noNA (age : ℤ) (words : List Word) (dur : ℚ) :
    noNotAnalyzed (pace_evaluate age words dur).feedback := by
  unfold pace_evaluate
  split
  · intro f hf
    simp only [List.mem_singleton] at hf
    subst hf
    decide
  · exact pace_feedback_noNA _ _ _ _

theorem pause_result_noNA (age : ℤ) (words : List Word) :
    noNotAnalyzed (pause_evaluate age words).feedback := by
  unfold pause_evaluate
  split
  · intro f hf
    simp only [List.mem_singleton] at hf
    subst hf
    decide
  · exact pause_feedback_noNA _ _ _

theorem filler_result_noNA (age : ℤ) (words : List Word) :
    noNotAnalyzed (fillers_evaluate age words).feedback := by
  unfold fillers_evaluate
  split
  · intro f hf
    exact absurd hf (List.not_mem_nil f)
  · exact filler_feedback_noNA _ _ _ _

theorem repetition_result_noNA (age : ℤ) (words : List Word) :
    noNotAnalyzed (repetition_evaluate age words).feedback := by
  unfold repetition_evaluate
  split
  · intro f hf
    exact absurd hf (List.not_mem_nil f)
  · exact repetition_feedback_noNA _ _ _

theorem structure_result_noNA (age : ℤ) (full_text : String) (nsegments : ℕ) :
    noNotAnalyzed (structure_evaluate age full_text nsegments).feedback := by
  unfold structure_evaluate
  split
  · intro f hf
    simp only [List.mem_singleton] at hf
    subst hf
    decide
  · exact structure_feedback_noNA _ _ _

theorem loudness_result_noNA (age : ℤ) (af : AudioFeatures) :
    noNotAnalyzed (loudness_evaluate age af).feedback := by
  unfold loudness_evaluate
  dsimp only
  split
  · intro f hf
    simp only [List.mem_singleton] at hf
    subst hf
    decide
  · exact loudness_feedback_noNA _ _ _

theorem pitch_result_noNA (age : ℤ) (af : AudioFeatures) :
    noNotAnalyzed (pitch_variation_evaluate age af).feedback := by
  unfold pitch_variation_evaluate
  dsimp only
  split
  · split
    · intro f hf
      simp only [List.mem_singleton] at hf
      subst hf
      decide
    · intro f hf
      simp only [List.mem_singleton] at hf
      subst hf
      decide
  · exact pitch_feedback_noNA _ _

theorem stamina_result_noNA (age : ℤ) (af : AudioFeatures) :
    noNotAnalyzed (stamina_evaluate age af).feedback := by
  unfold stamina_evaluate
  dsimp only
  split
  · intro f hf
    simp only [List.mem_singleton] at hf
    subst hf
    decide
  · split
    · intro f hf
      simp only [List.mem_singleton] at hf
      subst hf
      decide
    · exact stamina_feedback_noNA _ _

/-- All nine feedback lists of an `evaluate_all` result are free of
"not analyzed". -/
theorem eval_results_noNA (age : ℤ) (words : List Word) (full_text : String)
    (nsegments : ℕ) (dur : ℚ) (af : Option AudioFeatures) :
    noNotAnalyzed (evaluate_all age words full_text nsegments dur af).clarity.feedback ∧
    noNotAnalyzed (evaluate_all age words full_text nsegments dur af).pace.feedback ∧
    noNotAnalyzed
      (evaluate_all age words full_text nsegments dur af).pause_management.feedback ∧
    noNotAnalyzed
      (evaluate_all age words full_text nsegments dur af).filler_reduction.feedback ∧
    noNotAnalyzed
      (evaluate_all age words full_text nsegments dur af).repetition_control.feedback ∧
    noNotAnalyzed (evaluate_all age words full_text nsegments dur af).structure_.feedback ∧
    noNotAnalyzed (evaluate_all age words full_text nsegments dur af).loudness.feedback ∧
    noNotAnalyzed
      (evaluate_all age words full_text nsegments dur af).pitch_variation.feedback ∧
    noNotAnalyzed (evaluate_all age words full_text nsegments dur af).stamina.feedback := by
  refine ⟨clarity_result_noNA age words, pace_result_noNA age words dur,
    pause_result_noNA age words, filler_result_noNA age words,
    repetition_result_noNA age words, structure_result_noNA age full_text nsegments,
    ?_, ?_, ?_⟩ <;>
  · cases af with
    | none => exact not_analyzed_result_noNA
    | some a =>
      by_cases hv : a.is_valid = true
      · unfold evaluate_all
        dsimp only
        rw [hv]
        first
          | exact loudness_result_noNA age a
          | exact pitch_result_noNA age a
          | exact stamina_result_noNA age a
      · have hv' : a.is_valid = false := by
          revert hv
          cases a.is_valid <;> simp
        unfold evaluate_all
        dsimp only
        rw [hv']
        exact not_analyzed_result_noNA

theorem filter_keep_eq (l : List String) (h : noNotAnalyzed l) :
    l.filter keepFeedback = l.filter specKeepFeedback := by
  induction l with
  | nil => rfl
  | cons f t ih =>
    have hf : strIn ("not analyzed") (pyLower f) = false := h f (List.mem_cons_self f t)
    have ht : noNotAnalyzed t := fun f' hf' => h f' (List.mem_cons_of_mem f hf')
    have hcond : keepFeedback f = specKeepFeedback f := by
      unfold keepFeedback specKeepFeedback
      rw [hf, Bool.or_false]
    simp only [List.filter_cons, hcond, ih ht]

/-- The code's filtered `(score, feedback)` pool coincides with the spec's
pool on every `evaluate_all` result. -/
theorem pools_eq (age : ℤ) (words : List Word) (full_text : String) (nsegments : ℕ)
    (dur : ℚ) (af : Option AudioFeatures) :
    feedbackPool (evaluate_all age words full_text nsegments dur af) =
      specFeedbackPool (evaluate_all age words full_text nsegments dur af) := by
  obtain ⟨h1, h2, h3, h4, h5, h6, h7, h8, h9⟩ :=
    eval_results_noNA age words full_text nsegments dur af
  unfold feedbackPool specFeedbackPool
  simp only [List.map_cons, List.map_nil]
  rw [filter_keep_eq _ h1, filter_keep_eq _ h2, filter_keep_eq _ h3, filter_keep_eq _ h4,
    filter_keep_eq _ h5, filter_keep_eq _ h6, filter_keep_eq _ h7, filter_keep_eq _ h8,
    filter_keep_eq _ h9]

/-- The collection loop equals dedup-then-truncate while the budget is not
yet exhausted. -/
theorem suggLoop_spec (maxS : ℕ) : ∀ (l : List (ℤ × String)) (sugg seen : List String),
    sugg.length < maxS →
    suggLoop maxS l sugg seen =
      sugg ++ (dedupFirstAux (l.map Prod.snd) seen).take (maxS - sugg.length) := by
  intro l
  induction l with
  | nil =>
    intro sugg seen _
    simp [suggLoop, dedupFirstAux]
  | cons x xs ih =>
    intro sugg seen h
    obtain ⟨s, f⟩ := x
    by_cases hseen : seen.contains f = true
    · show (if seen.contains f = true then
          (if maxS ≤ sugg.length then sugg else suggLoop maxS xs sugg seen)
        else _) = _
      rw [if_pos hseen, if_neg (not_le.mpr h), ih sugg seen h]
      simp only [List.map_cons, dedupFirstAux, if_pos hseen]
    · show (if seen.contains f = true then _
        else
          (if maxS ≤ (sugg ++ [f]).length then sugg ++ [f]
            else suggLoop maxS xs (sugg ++ [f]) (f :: seen))) = _
      rw [if_neg hseen]
      simp only [List.map_cons, dedupFirstAux, if_neg hseen]
      by_cases hfull : maxS ≤ (sugg ++ [f]).length
      · rw [if_pos hfull]
        have hlen : (sugg ++ [f]).length = sugg.length + 1 := by simp
        have hone : maxS - sugg.length = 1 := by omega
        rw [hone]
        simp
      · rw [if_neg hfull]
        have hlen : (sugg ++ [f]).length = sugg.length + 1 := by simp
        rw [ih (sugg ++ [f]) (f :: seen) (by omega)]
        have hsucc : maxS - sugg.length = (maxS - (sugg ++ [f]).length) + 1 := by omega
        rw [hsucc, List.take_succ_cons, hlen]
        simp

/-- C9: on every full evaluation result, the ranked suggestion list of
the code equals the spec's algorithm — pool `(score, feedback)` pairs of
all nine metrics, drop feedback containing "not available" or
"not analyzed", stable-sort ascending by the originating score,
deduplicate by exact match keeping first occurrences, truncate to the
maximum (default 5). -/
theorem suggestions_match_spec (age : ℤ) (words : List Word) (full_text : String)
    (nsegments : ℕ) (dur : ℚ) (af : Option AudioFeatures) (maxS : ℕ) (hmax : 1 ≤ maxS) :
    generate_improvement_suggestions (evaluate_all age words full_text nsegments dur af)
        maxS =
      spec_suggestions (evaluate_all age words full_text nsegments dur af) maxS := by
  unfold generate_improvement_suggestions spec_suggestions
  rw [← pools_eq age words full_text nsegments dur af]
  rw [suggLoop_spec maxS _ [] [] (by simpa using hmax)]
  simp

/-- Witness for C9 at a concrete evaluation and the default maximum 5. -/
theorem suggestions_match_spec_witness :
    1 ≤ 5 ∧
    generate_improvement_suggestions (evaluate_all 10 [] "" 0 30 none) 5 =
      spec_suggestions (evaluate_all 10 [] "" 0 30 none) 5 :=
  ⟨by norm_num, suggestions_match_spec 10 [] "" 0 30 none 5 (by norm_num)⟩

end PublicSpeaking
